import Mathlib

/-!
Verification of the guvenduy sound-alert backend.

Shallow Lean embedding of the algorithmic core of the repository:
the geospatial alert matcher (src/backend/app/database.py), the prediction
retention policy, the alert-creation gate (src/backend/app/routers/alerts.py),
the inference readiness gate (src/backend/app/routers/audio.py), the label/
confidence map construction (src/backend/app/model.py), the training audio
chunker and the spectrogram image post-processing chain
(src/backend/app/training.py, src/backend/app/model.py).

Machine floats of the source are modelled as real numbers (for the
trigonometric distance computation) or rationals (for confidences and
durations, where only comparisons matter).  Database tables are modelled as
lists of records; a query that can raise is modelled by a failure flag on the
database value, and the except-branches of the source are translated
explicitly.
-/

namespace Guvenduy

open Real List

open scoped Classical

/-! ## Geospatial alert matcher, src/backend/app/database.py -/

/-- A row of the alerts table (src/backend/app/models/alert.py).
Coordinates and confidence are Python floats, modelled as reals; timestamps
are modelled as integers (epoch seconds). -/
structure Alert where
  id : ℕ
  user_id : Option ℕ
  class_id : ℕ
  latitude : ℝ
  longitude : ℝ
  confidence : ℝ
  device_id : String
  is_verified : Bool
  created_at : ℤ
  expires_at : Option ℤ

/-- The database as seen by get_alerts_in_radius: the stored alert rows, plus
a flag saying whether the underlying query raises (covering any operational
error of the session; the source wraps the whole body in try/except). -/
structure AlertDB where
  alerts : List Alert
  queryFails : Bool

/-- math.radians: degree to radian conversion used by calculate_distance. -/
noncomputable def radiansF (x : ℝ) : ℝ := x * π / 180

/-- calculate_distance (database.py, lines 558-572): haversine great-circle
distance in kilometres with Earth radius 6371. -/
noncomputable def calculate_distance (lat1 lon1 lat2 lon2 : ℝ) : ℝ :=
  let rlat1 := radiansF lat1
  let rlon1 := radiansF lon1
  let rlat2 := radiansF lat2
  let rlon2 := radiansF lon2
  let dlon := rlon2 - rlon1
  let dlat := rlat2 - rlat1
  let a := Real.sin (dlat / 2) ^ 2 +
    Real.cos rlat1 * Real.cos rlat2 * Real.sin (dlon / 2) ^ 2
  let c := 2 * Real.arcsin (Real.sqrt a)
  c * 6371

/-- Time filter of get_alerts_in_radius: applied only when hours_ago is
given; cutoff_time = now - hours_ago hours, and rows with
created_at >= cutoff_time pass. -/
def timePass (hours_ago : Option ℤ) (now : ℤ) (a : Alert) : Prop :=
  match hours_ago with
  | none => True
  | some h => now - h * 3600 ≤ a.created_at

/-- Class filter of get_alerts_in_radius: the source guard is the Python
truthiness test "if class_ids:", so both a missing and an empty list apply
no filter. -/
def classPass (class_ids : Option (List ℕ)) (a : Alert) : Prop :=
  match class_ids with
  | none => True
  | some [] => True
  | some l => a.class_id ∈ l

/-- Bounding-box prefilter of get_alerts_in_radius with
radius_deg = radius_km / 111.0 on both axes. -/
def boxPass (latitude longitude radius_km : ℝ) (a : Alert) : Prop :=
  latitude - radius_km / 111 ≤ a.latitude ∧
  a.latitude ≤ latitude + radius_km / 111 ∧
  longitude - radius_km / 111 ≤ a.longitude ∧
  a.longitude ≤ longitude + radius_km / 111

/-- Ordering key used by results.sort(key=lambda x: x.distance_km). -/
def distLE (p q : Alert × ℝ) : Prop := p.2 ≤ q.2

instance : IsTotal (Alert × ℝ) distLE := ⟨fun p q => le_total p.2 q.2⟩

instance : IsTrans (Alert × ℝ) distLE := ⟨fun _ _ _ h h' => le_trans h h'⟩

/-- Body of get_alerts_in_radius (database.py, lines 507-553): one query
combining the time, class and bounding-box conditions, then the exact
haversine pass keeping candidates with distance <= radius_km and attaching
distance_km, then a stable ascending sort by the attached distance.
Python list.sort is a stable sort; it is modelled by insertion sort, which
computes the same stable ascending reordering. -/
noncomputable def get_alerts_in_radius_body (alerts : List Alert)
    (latitude longitude radius_km : ℝ) (class_ids : Option (List ℕ))
    (hours_ago : Option ℤ) (now : ℤ) : List (Alert × ℝ) :=
  let potential_matches := alerts.filter fun a =>
    decide (timePass hours_ago now a ∧ classPass class_ids a ∧
      boxPass latitude longitude radius_km a)
  let results := potential_matches.filterMap fun a =>
    let distance := calculate_distance latitude longitude a.latitude a.longitude
    if distance ≤ radius_km then some (a, distance) else none
  results.insertionSort distLE

/-- get_alerts_in_radius with its surrounding try/except (database.py, lines
554-556): if the underlying query raises, the error is logged and a plain
empty list is returned. -/
noncomputable def get_alerts_in_radius (db : AlertDB)
    (latitude longitude radius_km : ℝ) (class_ids : Option (List ℕ))
    (hours_ago : Option ℤ) (now : ℤ) : List (Alert × ℝ) :=
  if db.queryFails then []
  else get_alerts_in_radius_body db.alerts latitude longitude radius_km
    class_ids hours_ago now

/-- Rewrites the expires_at column of an alert row, leaving every other
column unchanged; used to state that the matcher never consults expiry. -/
def setExpires (f : Alert → Option ℤ) (a : Alert) : Alert :=
  { a with expires_at := f a }

/-- Rewrites the created_at column of an alert row, leaving every other
column unchanged; used to state that no time filtering happens when
hours_ago is omitted. -/
def setCreated (g : Alert → ℤ) (a : Alert) : Alert :=
  { a with created_at := g a }

/-- Alert used for the high-latitude counterexample: latitude 60, longitude
0.1, with no expiry; all other fields arbitrary concrete values. -/
noncomputable def alertEast : Alert :=
  { id := 2, user_id := none, class_id := 1, latitude := 60,
    longitude := 1 / 10, confidence := 9 / 10, device_id := "dev",
    is_verified := false, created_at := 0, expires_at := none }

/-- Alert sitting exactly at the origin query point, with an expiry already
in the past. -/
noncomputable def alertOrigin : Alert :=
  { id := 1, user_id := none, class_id := 1, latitude := 0, longitude := 0,
    confidence := 9 / 10, device_id := "dev", is_verified := false,
    created_at := 0, expires_at := some (-5) }

/-! ## Prediction retention, add_prediction (src/backend/app/database.py) -/

/-- A row of the last_predictions table (src/backend/app/models/prediction.py). -/
structure PredRecord where
  id : ℕ
  user_id : Option ℕ
  file_name : String
  file_path : String
  highest_class : String
  highest_confidence : ℚ
  all_predictions : List (String × ℚ)
  created_at : ℕ
deriving DecidableEq

/-- Ordering used by the retention subquery: ORDER BY created_at DESC. -/
def createdDesc (a b : PredRecord) : Prop := b.created_at ≤ a.created_at

instance : DecidableRel createdDesc :=
  fun a b => Nat.decLe b.created_at a.created_at

/-- add_prediction (database.py, lines 274-300).  The session is created
with autoflush disabled (database.py, line 20), so the retention subquery
(ids of the 100 newest rows by created_at) and the bulk DELETE both run
against the stored rows only; the pending insert reaches the table when the
transaction commits.  The state is the list of stored rows. -/
def add_prediction (store : List PredRecord) (prediction : PredRecord) :
    List PredRecord :=
  let subquery := ((store.insertionSort createdDesc).take 100).map (fun p => p.id)
  let kept := store.filter (fun p => decide (p.id ∈ subquery))
  kept ++ [prediction]

/-- One concrete prediction row per index, creation time increasing with
the index. -/
def predFixture (i : ℕ) : PredRecord :=
  { id := i + 1, user_id := none, file_name := "f.wav", file_path := "p",
    highest_class := "horn", highest_confidence := 9 / 10,
    all_predictions := [("horn", 9 / 10)], created_at := i + 1 }

/-- A table state holding exactly 100 prediction rows. -/
def store100 : List PredRecord := (List.range 100).map predFixture

/-! ## Alert creation gate (src/backend/app/routers/alerts.py) -/

/-- A row of the notifiable_classes table
(src/backend/app/models/notifiable_class.py), restricted to the columns the
creation gate reads. -/
structure NotifiableClassRec where
  id : ℕ
  class_name : String
  min_confidence : ℚ
  is_active : Bool
deriving DecidableEq

/-- Request body of POST /alerts/create (AlertCreate in models/alerts.py). -/
structure AlertCreate where
  class_id : ℕ
  latitude : ℚ
  longitude : ℚ
  confidence : ℚ
  device_id : String
deriving DecidableEq

/-- The alert row written by the creation endpoint (rational-coordinate
mirror of the matcher's Alert record, keeping the gate executable). -/
structure AlertRow where
  user_id : Option ℕ
  class_id : ℕ
  latitude : ℚ
  longitude : ℚ
  confidence : ℚ
  device_id : String
  expires_at : ℤ
deriving DecidableEq

/-- The distinct rejections of create_new_alert (routers/alerts.py, lines
168-224): HTTP 404 for an unknown class id, HTTP 400 for an inactive class,
HTTP 400 for confidence below the class minimum, HTTP 500 when storage
fails. -/
inductive CreateAlertError where
  | classNotFound (class_id : ℕ)
  | classInactive (class_name : String)
  | confidenceBelow (confidence min_confidence : ℚ)
  | storageFailed
deriving DecidableEq

/-- HTTP status attached to each rejection of create_new_alert. -/
def CreateAlertError.status : CreateAlertError → ℕ
  | classNotFound _ => 404
  | classInactive _ => 400
  | confidenceBelow _ _ => 400
  | storageFailed => 500

/-- get_notifiable_class_by_id (database.py, lines 398-400): first stored
row with the requested id. -/
def get_notifiable_class_by_id (classes : List NotifiableClassRec) (cid : ℕ) :
    Option NotifiableClassRec :=
  classes.find? (fun c => c.id == cid)

/-- create_new_alert (routers/alerts.py, lines 168-224): look up the class,
reject if missing, inactive, or below the confidence threshold (strict
less-than, so equality passes), otherwise create the alert with a one-hour
expiry.  The storage write itself is modelled as succeeding; its failure is
the distinct 500 branch external to the gate. -/
def create_new_alert (classes : List NotifiableClassRec) (user_id : Option ℕ)
    (alert_data : AlertCreate) (now : ℤ) : Except CreateAlertError AlertRow :=
  match get_notifiable_class_by_id classes alert_data.class_id with
  | none => .error (.classNotFound alert_data.class_id)
  | some c =>
    if c.is_active = false then .error (.classInactive c.class_name)
    else if alert_data.confidence < c.min_confidence then
      .error (.confidenceBelow alert_data.confidence c.min_confidence)
    else .ok ⟨user_id, alert_data.class_id, alert_data.latitude,
      alert_data.longitude, alert_data.confidence, alert_data.device_id,
      now + 3600⟩

/-! ## Readiness gate of the predict endpoint (src/backend/app/routers/audio.py) -/

/-- An HTTP error response: status code and detail string. -/
structure HTTPErr where
  status : ℕ
  detail : String
deriving DecidableEq

/-- Observable outcome of one call of predict_sound: the response, and
whether the side effects (saving the upload to disk, running the
generator-extractor-classifier pipeline) happened during the call. -/
structure PredictOutcome where
  response : Except HTTPErr (List (String × ℚ))
  fileSaved : Bool
  pipelineRan : Bool

/-- predict_sound (routers/audio.py, lines 24-87): the readiness gate runs
first (is_model_ready, model.py lines 201-204, reads the model_ready flag),
then the extension check; only then is the upload saved and the pipeline
run.  A pipeline exception maps to HTTP 500.  The loading state and the
pipeline result are inputs of the model. -/
def predict_sound (model_ready : Bool) (filename : String)
    (pipeline : Except String (List (String × ℚ))) : PredictOutcome :=
  if model_ready = false then
    { response := .error ⟨503,
        "The model is still loading. Please try again in a moment."⟩,
      fileSaved := false, pipelineRan := false }
  else if (filename.toLower.endsWith ".wav") = false then
    { response := .error ⟨400,
        "File must be one of the following formats: .wav"⟩,
      fileSaved := false, pipelineRan := false }
  else
    match pipeline with
    | .ok preds =>
      { response := .ok preds, fileSaved := true, pipelineRan := true }
    | .error e =>
      { response := .error ⟨500, "Error processing file: " ++ e⟩,
        fileSaved := true, pipelineRan := true }

/-! ## Training audio chunker (src/backend/app/training.py) -/

/-- Python int() truncation toward zero on a rational. -/
def intTrunc (q : ℚ) : ℤ := if 0 ≤ q then ⌊q⌋ else -⌊-q⌋

/-- split_audio_file (training.py, lines 60-83).  Samples are the loaded
waveform y (sample values irrelevant, modelled as integers), sr the sample
rate; duration is librosa.get_duration(y, sr) = len(y)/sr.  A clip no
longer than max_duration is returned whole; otherwise slices of
samples_per_chunk = int(max_duration * sr) samples are taken at every
multiple of samples_per_chunk and only full-length slices are kept.  The
error path (sr of zero, or a zero chunk step, both raising inside the try)
returns the empty list, as does a negative step (empty Python range). -/
def split_audio_file (y : List ℤ) (sr : ℕ) (max_duration : ℚ) :
    List (List ℤ × ℕ) :=
  if sr = 0 then []
  else
    let duration : ℚ := (y.length : ℚ) / (sr : ℚ)
    if duration ≤ max_duration then [(y, sr)]
    else
      let spcZ := intTrunc (max_duration * sr)
      if spcZ ≤ 0 then []
      else
        let spc := spcZ.toNat
        let starts := (List.range ((y.length + spc - 1) / spc)).map
          (fun i => i * spc)
        ((starts.map (fun i => (y.drop i).take spc)).filter
          (fun c => c.length == spc)).map (fun c => (c, sr))

/-! ## Prediction result map (src/backend/app/model.py) -/

/-- Ordered label list (model.py, line 22). -/
def labels : List String :=
  ["background", "emergency_vehicle", "horn", "alarm_clock", "baby", "cat",
   "dog", "fire_alarm", "thunder", "car_crash", "explosion", "gun"]

/-- The loop building the result map in get_predictions (model.py, lines
236-238): result[label] = predictions[i] for i, label in enumerate(labels);
an out-of-range index raises, modelled as none. -/
def buildPredMap : ℕ → List String → List ℚ → Option (List (String × ℚ))
  | _, [], _ => some []
  | i, l :: ls, ps =>
    match ps.get? i with
    | none => none
    | some p =>
      match buildPredMap (i + 1) ls ps with
      | none => none
      | some rest => some ((l, p) :: rest)

/-- Result-map construction of get_predictions (model.py, lines 206-249).
The upstream stages (spectrogram, feature extraction, classifier) are
modelled by their output, the classifier row vector predictions. -/
def get_predictions (predictions : List ℚ) : Option (List (String × ℚ)) :=
  buildPredMap 0 labels predictions

/-- A concrete classifier output vector with twelve entries. -/
def preds12 : List ℚ :=
  [1/100, 2/100, 3/100, 4/100, 5/100, 6/100, 7/100, 8/100, 50/100,
   10/100, 2/100, 2/100]

/-! ## Spectrogram image post-processing (model.py and training.py) -/

/-- Colour mode of a PIL image. -/
inductive PILMode where
  | RGB
  | RGBA
  | L
  | P
deriving DecidableEq

/-- A PIL image: pixel dimensions and colour mode. -/
structure PILImage where
  width : ℕ
  height : ℕ
  mode : PILMode
deriving DecidableEq

/-- Shape-and-dtype view of a numpy array. -/
structure NpArray where
  shape : List ℕ
  uint8 : Bool
deriving DecidableEq

/-- Library model: Image.convert to RGB keeps dimensions, sets the mode. -/
def convertRGB (img : PILImage) : PILImage := { img with mode := PILMode.RGB }

/-- Library model: Image.resize sets the pixel dimensions, keeps the mode. -/
def resizeImg (img : PILImage) (w h : ℕ) : PILImage :=
  { img with width := w, height := h }

/-- Library model: np.array of a PIL image is (height, width, channels)
with dtype uint8, a 2-D array for single-channel modes. -/
def npOfImage (img : PILImage) : NpArray :=
  match img.mode with
  | PILMode.RGB => ⟨[img.height, img.width, 3], true⟩
  | PILMode.RGBA => ⟨[img.height, img.width, 4], true⟩
  | PILMode.L => ⟨[img.height, img.width], true⟩
  | PILMode.P => ⟨[img.height, img.width], true⟩

/-- The slice img_array[..., :3]: the last axis is clipped to at most 3. -/
def keepThreeChannels (a : NpArray) : NpArray :=
  match a.shape.getLast? with
  | none => a
  | some c => ⟨a.shape.dropLast ++ [min c 3], a.uint8⟩

/-- np.expand_dims(img_array, axis=0). -/
def expandDims0 (a : NpArray) : NpArray := ⟨1 :: a.shape, a.uint8⟩

/-- Image post-processing chain of create_spectrogram_from_audio (model.py,
lines 40-89), taking the matplotlib-rendered PNG as input: convert RGBA to
RGB, resize to 224 by 224, convert to an array, drop a leftover alpha
channel, add the batch dimension.  The mel-spectrogram math upstream does
not affect shape or dtype. -/
def create_spectrogram_from_audio (rendered : PILImage) : NpArray :=
  let img := if rendered.mode = PILMode.RGBA then convertRGB rendered else rendered
  let resized := resizeImg img 224 224
  let arr := npOfImage resized
  let arr3 := if arr.shape.getLast? = some 4 then keepThreeChannels arr else arr
  expandDims0 arr3

/-- Image post-processing chain of
SoundClassificationTrainer.create_spectrogram (training.py, lines 85-129):
convert to RGB whenever the mode differs, then resize to 224 by 224 and
convert to an array (no batch dimension). -/
def trainer_create_spectrogram (rendered : PILImage) : NpArray :=
  let img := if rendered.mode ≠ PILMode.RGB then convertRGB rendered else rendered
  let resized := resizeImg img 224 224
  npOfImage resized

/-! ## Theorems -/

/-- Unfolded form of calculate_distance, used to rewrite stepwise. -/
theorem calculate_distance_def (lat1 lon1 lat2 lon2 : ℝ) :
    calculate_distance lat1 lon1 lat2 lon2 =
      2 * Real.arcsin (Real.sqrt
        (Real.sin ((radiansF lat2 - radiansF lat1) / 2) ^ 2 +
          Real.cos (radiansF lat1) * Real.cos (radiansF lat2) *
            Real.sin ((radiansF lon2 - radiansF lon1) / 2) ^ 2)) * 6371 := rfl

/-- Membership in the result of the matcher body: an alert is paired with its
haversine distance and appears in the output exactly when it is stored,
passes the time, class and bounding-box filters, and its haversine distance
is at most the radius. -/
theorem mem_body_iff (alerts : List Alert) (lat lon r : ℝ)
    (cids : Option (List ℕ)) (hrs : Option ℤ) (now : ℤ) (a : Alert) :
    (a, calculate_distance lat lon a.latitude a.longitude) ∈
        get_alerts_in_radius_body alerts lat lon r cids hrs now ↔
      a ∈ alerts ∧ timePass hrs now a ∧ classPass cids a ∧ boxPass lat lon r a ∧
        calculate_distance lat lon a.latitude a.longitude ≤ r := by
  simp only [get_alerts_in_radius_body, List.mem_insertionSort,
    List.mem_filterMap, List.mem_filter, decide_eq_true_eq]
  constructor
  · rintro ⟨x, ⟨hx, ht, hc, hb⟩, hfx⟩
    by_cases hd : calculate_distance lat lon x.latitude x.longitude ≤ r
    · rw [if_pos hd, Option.some_inj, Prod.mk.injEq] at hfx
      obtain ⟨rfl, -⟩ := hfx
      exact ⟨hx, ht, hc, hb, hd⟩
    · rw [if_neg hd] at hfx
      exact Option.noConfusion hfx
  · rintro ⟨ha, ht, hc, hb, hd⟩
    exact ⟨a, ⟨ha, ht, hc, hb⟩, by rw [if_pos hd]⟩

/-- Membership in get_alerts_in_radius when the underlying query succeeds. -/
theorem mem_get_alerts_iff (db : AlertDB) (lat lon r : ℝ)
    (cids : Option (List ℕ)) (hrs : Option ℤ) (now : ℤ) (a : Alert)
    (h : db.queryFails = false) :
    (a, calculate_distance lat lon a.latitude a.longitude) ∈
        get_alerts_in_radius db lat lon r cids hrs now ↔
      a ∈ db.alerts ∧ timePass hrs now a ∧ classPass cids a ∧
        boxPass lat lon r a ∧
        calculate_distance lat lon a.latitude a.longitude ≤ r := by
  unfold get_alerts_in_radius
  rw [if_neg (by simp [h])]
  exact mem_body_iff ..

/-- Sortedness of the matcher output by the attached distance. -/
theorem get_alerts_sorted (db : AlertDB) (lat lon r : ℝ)
    (cids : Option (List ℕ)) (hrs : Option ℤ) (now : ℤ) :
    List.Sorted (· ≤ ·)
      ((get_alerts_in_radius db lat lon r cids hrs now).map Prod.snd) := by
  unfold get_alerts_in_radius
  by_cases hf : db.queryFails = true
  · rw [if_pos hf]; simp
  · rw [if_neg hf]
    unfold get_alerts_in_radius_body
    exact List.Pairwise.map Prod.snd (fun _ _ h => h)
      (List.sorted_insertionSort distLE _)

/-- The haversine distance from a point to itself is zero. -/
theorem calculate_distance_self (lat lon : ℝ) :
    calculate_distance lat lon lat lon = 0 := by
  rw [calculate_distance_def, sub_self, sub_self]
  simp

/-- Closed form of the counterexample distance: from (60, 0) to (60, 0.1),
both latitude terms vanish and cos(60 degrees in radians) = 1/2. -/
theorem calculate_distance_east :
    calculate_distance 60 0 60 (1 / 10) =
      12742 * Real.arcsin (Real.sin (π / 3600) / 2) := by
  rw [calculate_distance_def, sub_self]
  have h60 : radiansF 60 = π / 3 := by unfold radiansF; ring
  have hlon : (radiansF (1 / 10) - radiansF 0) / 2 = π / 3600 := by
    unfold radiansF; ring
  rw [h60, hlon, Real.cos_pi_div_three]
  have hsq : Real.sin (0 / 2) ^ 2 + 1 / 2 * (1 / 2) * Real.sin (π / 3600) ^ 2 =
      (Real.sin (π / 3600) / 2) ^ 2 := by
    rw [zero_div, Real.sin_zero]; ring
  rw [hsq, Real.sqrt_sq ?_]
  · ring
  · have h1 : (0 : ℝ) ≤ π / 3600 := by positivity
    have h2 : π / 3600 ≤ π := by
      have := Real.pi_pos
      nlinarith
    have := Real.sin_nonneg_of_nonneg_of_le_pi h1 h2
    positivity

/-- Upper bound on the counterexample arcsin term, via sin x < x on the
inside and the cubic lower bound for sin on the outside. -/
theorem arcsin_east_le : Real.arcsin (Real.sin (π / 3600) / 2) ≤ 3 / 6371 := by
  have hs : Real.sin (π / 3600) / 2 ≤ Real.sin (3 / 6371) := by
    have h1 : Real.sin (π / 3600) < π / 3600 := Real.sin_lt (by positivity)
    have h2 : (3 : ℝ) / 6371 - (3 / 6371) ^ 3 / 4 < Real.sin (3 / 6371) :=
      Real.sin_gt_sub_cube (by norm_num) (by norm_num)
    have hpi : π < 3.1416 := Real.pi_lt_d4
    have h3 : (3.1416 : ℝ) / 7200 ≤ 3 / 6371 - (3 / 6371) ^ 3 / 4 := by norm_num
    linarith
  have h4 : Real.arcsin (Real.sin (3 / 6371)) = 3 / 6371 := by
    have hp3 : (3 : ℝ) < π := Real.pi_gt_three
    exact Real.arcsin_sin (by linarith) (by linarith)
  calc Real.arcsin (Real.sin (π / 3600) / 2)
      ≤ Real.arcsin (Real.sin (3 / 6371)) := Real.monotone_arcsin hs
    _ = 3 / 6371 := h4

/-- The counterexample alert is within 6 km of the query point. -/
theorem calculate_distance_east_le : calculate_distance 60 0 60 (1 / 10) ≤ 6 := by
  rw [calculate_distance_east]
  have := arcsin_east_le
  linarith

/-- On a failing query, or when a candidate misses the bounding box, the
concrete evaluations below reduce the matcher to the empty list. -/
theorem get_alerts_east_empty :
    get_alerts_in_radius ⟨[alertEast], false⟩ 60 0 6 none none 0 = [] := by
  have hbox : ¬ boxPass 60 0 6 alertEast := by
    rintro ⟨-, -, -, h⟩
    rw [show alertEast.longitude = 1 / 10 from rfl] at h
    norm_num at h
  have hdec : (decide (boxPass 60 0 6 alertEast)) = false := decide_eq_false hbox
  simp [get_alerts_in_radius, get_alerts_in_radius_body, hdec, List.insertionSort]

/-- The matcher body commutes with any rewriting of alert rows that leaves
the coordinates, the class id, and the outcome of the time filter
unchanged. -/
theorem body_map_comm (alerts : List Alert) (lat lon r : ℝ)
    (cids : Option (List ℕ)) (hrs : Option ℤ) (now : ℤ) (m : Alert → Alert)
    (hlat : ∀ a, (m a).latitude = a.latitude)
    (hlon : ∀ a, (m a).longitude = a.longitude)
    (hcls : ∀ a, (m a).class_id = a.class_id)
    (htime : ∀ a, timePass hrs now (m a) ↔ timePass hrs now a) :
    get_alerts_in_radius_body (alerts.map m) lat lon r cids hrs now =
      (get_alerts_in_radius_body alerts lat lon r cids hrs now).map
        (fun p => (m p.1, p.2)) := by
  simp only [get_alerts_in_radius_body]
  rw [List.filter_map]
  have hpred : (fun a => decide (timePass hrs now a ∧ classPass cids a ∧
      boxPass lat lon r a)) ∘ m =
      fun a => decide (timePass hrs now a ∧ classPass cids a ∧
        boxPass lat lon r a) := by
    funext a
    simp only [Function.comp_apply]
    rw [decide_eq_decide]
    refine and_congr (htime a) (and_congr ?_ ?_)
    · unfold classPass
      cases cids with
      | none => exact Iff.rfl
      | some l =>
        cases l with
        | nil => exact Iff.rfl
        | cons x xs => rw [hcls]
    · unfold boxPass
      rw [hlat, hlon]
  rw [hpred, List.filterMap_map]
  have hfm : ((fun a : Alert =>
      let distance := calculate_distance lat lon a.latitude a.longitude
      if distance ≤ r then some (a, distance) else none) ∘ m) =
      fun a : Alert =>
        (if calculate_distance lat lon a.latitude a.longitude ≤ r then
          some (a, calculate_distance lat lon a.latitude a.longitude)
        else none).map (fun p => (m p.1, p.2)) := by
    funext a
    simp only [Function.comp_apply, hlat, hlon]
    by_cases hd : calculate_distance lat lon a.latitude a.longitude ≤ r
    · rw [if_pos hd, if_pos hd]; rfl
    · rw [if_neg hd, if_neg hd]; rfl
  rw [hfm, ← List.map_filterMap]
  exact (List.map_insertionSort distLE distLE (fun p => (m p.1, p.2)) _
    fun a _ b _ => Iff.rfl).symm

/-- C1. An alert within the haversine radius but outside the flat
degree bounding box: at latitude 60 a longitude offset of 0.1 degrees is
about 5.56 km away, inside a 6 km radius, yet outside the 6/111-degree box,
so the matcher drops it even though it passes the (absent) class and time
filters.  This refutes the claim that membership in the result is
equivalent to haversine distance at most radius_km independent of the
bounding-box prefilter. -/
theorem C1_counterexample_box_excludes_within_radius :
    calculate_distance 60 0 alertEast.latitude alertEast.longitude ≤ 6 ∧
    timePass none 0 alertEast ∧ classPass none alertEast ∧
    alertEast ∈ ([alertEast] : List Alert) ∧
    (alertEast, calculate_distance 60 0 alertEast.latitude alertEast.longitude) ∉
      get_alerts_in_radius ⟨[alertEast], false⟩ 60 0 6 none none 0 := by
  refine ⟨calculate_distance_east_le, trivial, trivial, List.mem_singleton_self _, ?_⟩
  rw [get_alerts_east_empty]
  exact List.not_mem_nil _

/-- C1 (amended). For every stored alert, the result of get_alerts_in_radius
contains that alert (with its haversine distance attached) if and only if
the alert passes the class-id and creation-time filters, lies inside the
flat radius_km/111-degree bounding box, and its haversine distance from the
query point is at most radius_km; the bounding-box prefilter is part of the
membership condition, not redundant with it. -/
theorem C1_radius_membership (db : AlertDB) (lat lon r : ℝ)
    (cids : Option (List ℕ)) (hrs : Option ℤ) (now : ℤ) (a : Alert)
    (h : db.queryFails = false) :
    (a, calculate_distance lat lon a.latitude a.longitude) ∈
        get_alerts_in_radius db lat lon r cids hrs now ↔
      a ∈ db.alerts ∧ timePass hrs now a ∧ classPass cids a ∧
        boxPass lat lon r a ∧
        calculate_distance lat lon a.latitude a.longitude ≤ r :=
  mem_get_alerts_iff db lat lon r cids hrs now a h

/-- Witness for C1: an alert sitting exactly at the query point is returned
together with its (zero) distance. -/
theorem C1_radius_membership_witness :
    (alertOrigin, calculate_distance 0 0 alertOrigin.latitude alertOrigin.longitude) ∈
      get_alerts_in_radius ⟨[alertOrigin], false⟩ 0 0 1 none none 5 := by
  refine (C1_radius_membership ⟨[alertOrigin], false⟩ 0 0 1 none none 5
    alertOrigin rfl).mpr ⟨List.mem_singleton_self _, trivial, trivial,
      ⟨by norm_num [alertOrigin], by norm_num [alertOrigin],
        by norm_num [alertOrigin], by norm_num [alertOrigin]⟩, ?_⟩
  rw [show alertOrigin.latitude = (0 : ℝ) from rfl,
    show alertOrigin.longitude = (0 : ℝ) from rfl, calculate_distance_self]
  norm_num

/-- C4. The list returned by get_alerts_in_radius is ordered by the attached
distance_km value in non-decreasing order. -/
theorem C4_result_sorted_by_distance (db : AlertDB) (lat lon r : ℝ)
    (cids : Option (List ℕ)) (hrs : Option ℤ) (now : ℤ) :
    List.Sorted (· ≤ ·)
      ((get_alerts_in_radius db lat lon r cids hrs now).map Prod.snd) :=
  get_alerts_sorted db lat lon r cids hrs now

/-- C9. A failing underlying query is not surfaced: even with an alert
stored at the query point, get_alerts_in_radius returns a plain empty list
when the query raises, indistinguishable from a genuine no-alerts result.
This refutes the claim that the failure is surfaced to the caller. -/
theorem C9_counterexample_error_swallowed :
    get_alerts_in_radius ⟨[alertOrigin], true⟩ 0 0 1 none none 0 = [] := by
  unfold get_alerts_in_radius
  rw [if_pos rfl]

/-- C9 (amended). Whenever the underlying query or distance computation
raises, get_alerts_in_radius catches the exception, logs it, and returns
the default empty list instead of surfacing the failure. -/
theorem C9_error_returns_empty (db : AlertDB) (lat lon r : ℝ)
    (cids : Option (List ℕ)) (hrs : Option ℤ) (now : ℤ)
    (h : db.queryFails = true) :
    get_alerts_in_radius db lat lon r cids hrs now = [] := by
  unfold get_alerts_in_radius
  rw [if_pos h]

/-- Witness for C9 (amended) at a concrete failing database. -/
theorem C9_error_returns_empty_witness :
    get_alerts_in_radius ⟨[alertEast], true⟩ 1 2 3 none none 4 = [] :=
  C9_error_returns_empty ⟨[alertEast], true⟩ 1 2 3 none none 4 rfl

/-- C10. The matcher never consults expires_at: rewriting the expiry of
every stored alert arbitrarily commutes with the query (first conjunct);
with hours_ago omitted no time filtering of any kind is applied: rewriting
created_at arbitrarily and changing the query time commutes as well (second
conjunct); consequently an alert whose expiry lies in the past is still
returned whenever it passes the class and spatial conditions (third
conjunct). -/
theorem C10_no_expiry_filter (db : AlertDB) (lat lon r : ℝ)
    (cids : Option (List ℕ)) (hrs : Option ℤ) (f : Alert → Option ℤ)
    (g : Alert → ℤ) (now now2 : ℤ) :
    (get_alerts_in_radius ⟨db.alerts.map (setExpires f), db.queryFails⟩
        lat lon r cids hrs now =
      (get_alerts_in_radius db lat lon r cids hrs now).map
        (fun p => (setExpires f p.1, p.2))) ∧
    (get_alerts_in_radius ⟨db.alerts.map (setCreated g), db.queryFails⟩
        lat lon r cids none now =
      (get_alerts_in_radius db lat lon r cids none now2).map
        (fun p => (setCreated g p.1, p.2))) ∧
    (∀ a ∈ db.alerts, db.queryFails = false → classPass cids a →
      boxPass lat lon r a →
      calculate_distance lat lon a.latitude a.longitude ≤ r →
      (a, calculate_distance lat lon a.latitude a.longitude) ∈
        get_alerts_in_radius db lat lon r cids none now) := by
  refine ⟨?_, ?_, ?_⟩
  · unfold get_alerts_in_radius
    by_cases hf : db.queryFails = true
    · rw [if_pos hf, if_pos hf]; rfl
    · rw [if_neg hf, if_neg hf]
      exact body_map_comm db.alerts lat lon r cids hrs now (setExpires f)
        (fun _ => rfl) (fun _ => rfl) (fun _ => rfl)
        (fun a => by unfold timePass setExpires; cases hrs <;> exact Iff.rfl)
  · unfold get_alerts_in_radius
    by_cases hf : db.queryFails = true
    · rw [if_pos hf, if_pos hf]; rfl
    · rw [if_neg hf, if_neg hf]
      have hnow : get_alerts_in_radius_body db.alerts lat lon r cids none now2 =
          get_alerts_in_radius_body db.alerts lat lon r cids none now := rfl
      rw [hnow]
      exact body_map_comm db.alerts lat lon r cids none now (setCreated g)
        (fun _ => rfl) (fun _ => rfl) (fun _ => rfl) (fun a => Iff.rfl)
  · intro a ha hfail hc hb hd
    exact (mem_get_alerts_iff db lat lon r cids none now a hfail).mpr
      ⟨ha, trivial, hc, hb, hd⟩

/-- Witness for C10: a concrete alert whose expires_at is already in the
past (query time 1000, expiry -5) is still returned by a query with
hours_ago omitted. -/
theorem C10_no_expiry_filter_witness :
    (alertOrigin, calculate_distance 0 0 alertOrigin.latitude alertOrigin.longitude) ∈
      get_alerts_in_radius ⟨[alertOrigin], false⟩ 0 0 1 none none 1000 := by
  refine (C10_no_expiry_filter ⟨[alertOrigin], false⟩ 0 0 1 none none
    (fun a : Alert => a.expires_at) (fun a : Alert => a.created_at)
    1000 1000).2.2 alertOrigin (List.mem_singleton_self _) rfl trivial
    ⟨by norm_num [alertOrigin], by norm_num [alertOrigin],
      by norm_num [alertOrigin], by norm_num [alertOrigin]⟩ ?_
  rw [show alertOrigin.latitude = (0 : ℝ) from rfl,
    show alertOrigin.longitude = (0 : ℝ) from rfl, calculate_distance_self]
  norm_num

/-- With at most 100 stored rows, the retention pass of add_prediction
deletes nothing: the subquery returns every stored id (the pending insert
is not flushed, autoflush being disabled), so the DELETE matches no row and
the new row is appended. -/
theorem add_prediction_of_le (store : List PredRecord) (rec : PredRecord)
    (h : store.length ≤ 100) :
    add_prediction store rec = store ++ [rec] := by
  simp only [add_prediction]
  have hlen : (store.insertionSort createdDesc).length ≤ 100 := by
    rw [List.length_insertionSort]; exact h
  rw [List.take_of_length_le hlen]
  have hfilter : store.filter (fun p => decide (p.id ∈
      (store.insertionSort createdDesc).map (fun p => p.id))) = store := by
    rw [List.filter_eq_self]
    intro a ha
    simp only [decide_eq_true_eq, List.mem_map]
    exact ⟨a, (List.mem_insertionSort createdDesc).mpr ha, rfl⟩
  rw [hfilter]

/-- C2 (code bug). In a state with exactly 100 stored prediction rows, a
call of add_prediction leaves 101 rows, the oldest included: the retention
subquery runs before the pending insert is flushed (the session is built
with autoflush disabled), so it returns all 100 stored ids and the DELETE
removes nothing.  This contradicts the function's own docstring (maintain
only the last 100 predictions) and the claimed eviction of the oldest
row. -/
theorem C2_retention_leaves_101 (store : List PredRecord) (rec : PredRecord)
    (h : store.length = 100) :
    (add_prediction store rec).length = 101 ∧
    add_prediction store rec = store ++ [rec] := by
  have he : add_prediction store rec = store ++ [rec] :=
    add_prediction_of_le store rec (by omega)
  refine ⟨?_, he⟩
  rw [he, List.length_append, h]
  rfl

/-- Witness for C2 at a concrete table state of 100 rows. -/
theorem C2_retention_leaves_101_witness :
    store100.length = 100 ∧
    (add_prediction store100 (predFixture 100)).length = 101 ∧
    add_prediction store100 (predFixture 100) = store100 ++ [predFixture 100] := by
  have h : store100.length = 100 := by
    rw [store100, List.length_map, List.length_range]
  have hc := C2_retention_leaves_101 store100 (predFixture 100) h
  exact ⟨h, hc.1, hc.2⟩

/-- C3. For a request naming an existing notifiable class, create_new_alert
creates the alert exactly when the class is active and the request's
confidence is at least the class minimum (equality passes); an inactive
class is rejected with the distinct inactive-class error, an active class
with too-low confidence with the distinct below-threshold error, both
carrying HTTP 400, and no alert row is produced in either case. -/
theorem C3_alert_creation_gate (classes : List NotifiableClassRec)
    (user_id : Option ℕ) (alert_data : AlertCreate) (now : ℤ)
    (c : NotifiableClassRec)
    (h : get_notifiable_class_by_id classes alert_data.class_id = some c) :
    ((∃ a, create_new_alert classes user_id alert_data now = .ok a) ↔
      (c.is_active = true ∧ c.min_confidence ≤ alert_data.confidence)) ∧
    (c.is_active = false →
      create_new_alert classes user_id alert_data now =
        .error (.classInactive c.class_name) ∧
      (CreateAlertError.classInactive c.class_name).status = 400) ∧
    (c.is_active = true → alert_data.confidence < c.min_confidence →
      create_new_alert classes user_id alert_data now =
        .error (.confidenceBelow alert_data.confidence c.min_confidence) ∧
      (CreateAlertError.confidenceBelow alert_data.confidence
        c.min_confidence).status = 400) := by
  simp only [create_new_alert, h]
  refine ⟨?_, ?_, ?_⟩
  · constructor
    · rintro ⟨a, ha⟩
      by_cases hact : c.is_active = false
      · rw [if_pos hact] at ha; exact absurd ha (by simp)
      · rw [if_neg hact] at ha
        by_cases hconf : alert_data.confidence < c.min_confidence
        · rw [if_pos hconf] at ha; exact absurd ha (by simp)
        · exact ⟨eq_true_of_ne_false hact, le_of_not_lt hconf⟩
    · rintro ⟨hact, hconf⟩
      rw [if_neg (by simp [hact]), if_neg (not_lt.mpr hconf)]
      exact ⟨_, rfl⟩
  · intro hact
    rw [if_pos hact]
    exact ⟨rfl, rfl⟩
  · intro hact hconf
    rw [if_neg (by simp [hact]), if_pos hconf]
    exact ⟨rfl, rfl⟩

/-- Witness for C3: a class with threshold one half, active, and a request
at exactly the threshold (the equality case) is accepted. -/
theorem C3_alert_creation_gate_witness :
    ∃ a, create_new_alert [⟨7, "horn", 1 / 2, true⟩] (some 3)
      ⟨7, 1, 2, 1 / 2, "dev"⟩ 0 = .ok a := by
  refine ((C3_alert_creation_gate [⟨7, "horn", 1 / 2, true⟩] (some 3)
    ⟨7, 1, 2, 1 / 2, "dev"⟩ 0 ⟨7, "horn", 1 / 2, true⟩ rfl).1).mpr ?_
  exact ⟨rfl, by norm_num⟩

/-- C5. A prediction request arriving while the model is not ready fails
fast with the retryable HTTP 503 still-loading response, before the upload
is saved and before any pipeline stage runs. -/
theorem C5_not_ready_fails_fast (is_ready : Bool) (filename : String)
    (pipeline : Except String (List (String × ℚ)))
    (h : is_ready = false) :
    predict_sound is_ready filename pipeline =
      { response := .error ⟨503,
          "The model is still loading. Please try again in a moment."⟩,
        fileSaved := false, pipelineRan := false } := by
  unfold predict_sound
  rw [if_pos h]

/-- Witness for C5 at a concrete unready state. -/
theorem C5_not_ready_fails_fast_witness :
    predict_sound false "clip.wav" (.ok [("horn", 9 / 10)]) =
      { response := .error ⟨503,
          "The model is still loading. Please try again in a moment."⟩,
        fileSaved := false, pipelineRan := false } :=
  C5_not_ready_fails_fast false "clip.wav" (.ok [("horn", 9 / 10)]) rfl

/-- Dropping up to a successfully indexed position splits off that
element. -/
theorem drop_eq_cons_of_get? {α : Type} :
    ∀ (ps : List α) (i : ℕ) (p : α), ps.get? i = some p →
      ps.drop i = p :: ps.drop (i + 1) := by
  intro ps
  induction ps with
  | nil => intro i p h; simp at h
  | cons x xs ih =>
    intro i p h
    cases i with
    | zero =>
      simp only [List.get?] at h
      cases h
      rfl
    | succ n =>
      simp only [List.get?] at h
      simpa using ih n p h

/-- The result-map loop pairs each label, in order, with the classifier
output at the same position. -/
theorem buildPredMap_spec (ls : List String) :
    ∀ (i : ℕ) (ps : List ℚ) (res : List (String × ℚ)),
      buildPredMap i ls ps = some res →
      res.map Prod.fst = ls ∧ res.map Prod.snd = (ps.drop i).take ls.length := by
  induction ls with
  | nil =>
    intro i ps res h
    simp only [buildPredMap, Option.some_inj] at h
    subst h
    simp
  | cons l ls ih =>
    intro i ps res h
    simp only [buildPredMap] at h
    cases hp : ps.get? i with
    | none => rw [hp] at h; exact absurd h (by simp)
    | some p =>
      rw [hp] at h
      cases hr : buildPredMap (i + 1) ls ps with
      | none => rw [hr] at h; exact absurd h (by simp)
      | some rest =>
        rw [hr, Option.some_inj] at h
        subst h
        obtain ⟨h1, h2⟩ := ih (i + 1) ps rest hr
        refine ⟨by simp [h1], ?_⟩
        rw [List.map_cons, h2, drop_eq_cons_of_get? ps i p hp]
        simp [List.length_cons]

/-- C7. Whenever the result-map construction of get_predictions succeeds,
the keys of the returned mapping are exactly the configured label list, in
order and with no extras, and the values are the classifier outputs aligned
by position. -/
theorem C7_prediction_label_map (ps : List ℚ) (res : List (String × ℚ))
    (h : get_predictions ps = some res) :
    res.map Prod.fst = labels ∧ res.map Prod.snd = ps.take labels.length := by
  obtain ⟨h1, h2⟩ := buildPredMap_spec labels 0 ps res h
  exact ⟨h1, by simpa using h2⟩

/-- Witness for C7 at a concrete twelve-entry classifier output. -/
theorem C7_prediction_label_map_witness :
    (labels.zip preds12).map Prod.fst = labels ∧
    (labels.zip preds12).map Prod.snd = preds12.take labels.length :=
  C7_prediction_label_map preds12 (labels.zip preds12) rfl

/-- C8. For any rendered spectrogram PNG decoding as an RGB or RGBA image
of any pixel dimensions (hence for source audio of any duration), the
inference-side post-processing yields a batched uint8 array of shape
(1, 224, 224, 3) and the training-side post-processing yields a uint8
array of shape (224, 224, 3): always exactly three channels, alpha
stripped. -/
theorem C8_spectrogram_shape (rendered : PILImage)
    (h : rendered.mode = PILMode.RGB ∨ rendered.mode = PILMode.RGBA) :
    create_spectrogram_from_audio rendered = ⟨[1, 224, 224, 3], true⟩ ∧
    trainer_create_spectrogram rendered = ⟨[224, 224, 3], true⟩ := by
  obtain ⟨w, ht, m⟩ := rendered
  rcases h with h | h <;> cases h <;> exact ⟨rfl, rfl⟩

/-- Witness for C8 at a concrete 480 by 480 RGBA render. -/
theorem C8_spectrogram_shape_witness :
    create_spectrogram_from_audio ⟨480, 480, PILMode.RGBA⟩ =
      ⟨[1, 224, 224, 3], true⟩ ∧
    trainer_create_spectrogram ⟨480, 480, PILMode.RGBA⟩ =
      ⟨[224, 224, 3], true⟩ :=
  C8_spectrogram_shape ⟨480, 480, PILMode.RGBA⟩ (Or.inr rfl)

/-- Filtering a range by a cutoff below its bound gives the shorter range. -/
theorem filter_range_lt (N D : ℕ) (h : D ≤ N) :
    (List.range N).filter (fun i => decide (i < D)) = List.range D := by
  induction N with
  | zero =>
    have hD : D = 0 := by omega
    subst hD
    rfl
  | succ n ih =>
    rcases Nat.lt_or_ge n D with hlt | hge
    · have hD : D = n + 1 := by omega
      subst hD
      exact List.filter_eq_self.mpr
        (fun a ha => by simpa using List.mem_range.mp ha)
    · rw [List.range_succ, List.filter_append, ih (by omega)]
      have hl : List.filter (fun i => decide (i < D)) [n] = [] := by
        simp [Nat.not_lt.mpr hge]
      rw [hl, List.append_nil]

/-- A chunk starting before the last full-chunk boundary has full length. -/
theorem slice_full (y : List ℤ) (spc i : ℕ) (hspc : 0 < spc)
    (hi : i < y.length / spc) :
    ((y.drop (i * spc)).take spc).length = spc := by
  rw [List.length_take, List.length_drop]
  have h1 : (i + 1) * spc ≤ y.length :=
    (Nat.le_div_iff_mul_le hspc).mp (Nat.succ_le_of_lt hi)
  rw [Nat.add_mul, one_mul] at h1
  exact Nat.min_eq_left (by omega)

/-- The kept chunks of the splitting loop are exactly the slices at the
first floor(len/spc) chunk boundaries. -/
theorem chunks_closed_form (y : List ℤ) (spc : ℕ) (hspc : 0 < spc) :
    (((List.range ((y.length + spc - 1) / spc)).map (fun i => i * spc)).map
        (fun i => (y.drop i).take spc)).filter (fun c => c.length == spc) =
      (List.range (y.length / spc)).map
        (fun i => (y.drop (i * spc)).take spc) := by
  rw [List.map_map, List.filter_map]
  have hpred : ((fun c : List ℤ => c.length == spc) ∘
      ((fun i => (y.drop i).take spc) ∘ (fun i => i * spc))) =
      fun i => decide (i < y.length / spc) := by
    funext i
    simp only [Function.comp_apply]
    by_cases hi : i < y.length / spc
    · rw [decide_eq_true hi, slice_full y spc i hspc hi]
      simp
    · rw [decide_eq_false hi]
      have hge : y.length / spc ≤ i := Nat.not_lt.mp hi
      have hmod := Nat.div_add_mod y.length spc
      have hmlt := Nat.mod_lt y.length hspc
      have hmul : spc * (y.length / spc) ≤ spc * i :=
        Nat.mul_le_mul_left spc hge
      have h1 : y.length - i * spc < spc := by
        rw [Nat.mul_comm i spc]
        omega
      rw [List.length_take, List.length_drop,
        Nat.min_eq_right (le_of_lt h1)]
      exact beq_eq_false_iff_ne.mpr (Nat.ne_of_lt h1)
  rw [hpred, filter_range_lt _ _ (Nat.div_le_div_right (by omega))]
  rfl

/-- C6. A clip whose duration is at most max_duration is returned as one
whole chunk; a longer clip yields exactly the consecutive non-overlapping
full slices of samples_per_chunk = int(max_duration * sr) samples taken at
the chunk boundaries (every kept chunk has full length and the source
sample rate), and the discarded tail past the last full chunk is shorter
than one chunk. -/
theorem C6_split_audio_chunks (y : List ℤ) (sr : ℕ) (max_duration : ℚ)
    (hsr : 0 < sr) :
    ((y.length : ℚ) / (sr : ℚ) ≤ max_duration →
      split_audio_file y sr max_duration = [(y, sr)]) ∧
    (max_duration < (y.length : ℚ) / (sr : ℚ) →
      ∀ spc : ℕ, (spc : ℤ) = intTrunc (max_duration * sr) → 0 < spc →
      split_audio_file y sr max_duration =
        (List.range (y.length / spc)).map
          (fun i => ((y.drop (i * spc)).take spc, sr)) ∧
      (∀ c ∈ split_audio_file y sr max_duration,
        c.1.length = spc ∧ c.2 = sr) ∧
      (y.drop (spc * (y.length / spc))).length < spc) := by
  have hsr0 : ¬ sr = 0 := Nat.pos_iff_ne_zero.mp hsr
  constructor
  · intro hdur
    unfold split_audio_file
    rw [if_neg hsr0, if_pos hdur]
  · intro hdur spc hspcZ hspc
    have hcast : (intTrunc (max_duration * sr)).toNat = spc := by omega
    have heq : split_audio_file y sr max_duration =
        (List.range (y.length / spc)).map
          (fun i => ((y.drop (i * spc)).take spc, sr)) := by
      simp only [split_audio_file]
      rw [if_neg hsr0, if_neg (not_le.mpr hdur), if_neg (by omega), hcast,
        chunks_closed_form y spc hspc, List.map_map]
      rfl
    refine ⟨heq, ?_, ?_⟩
    · intro c hc
      rw [heq] at hc
      obtain ⟨i, hi, rfl⟩ := List.mem_map.mp hc
      exact ⟨slice_full y spc i hspc (List.mem_range.mp hi), rfl⟩
    · rw [List.length_drop]
      have hmod := Nat.div_add_mod y.length spc
      have hmlt := Nat.mod_lt y.length hspc
      omega

/-- A concrete twelve-sample waveform. -/
def y12 : List ℤ := [0, 1, 2, 3, 4, 5, 6, 7, 8, 9, 10, 11]

/-- Witness for C6: at sample rate 1 and chunk duration 5, a twelve-sample
clip yields the two full five-sample chunks and drops the two-sample tail,
while a three-sample clip is returned whole. -/
theorem C6_split_audio_chunks_witness :
    split_audio_file y12 1 5 =
      [([0, 1, 2, 3, 4], 1), ([5, 6, 7, 8, 9], 1)] ∧
    split_audio_file ([0, 1, 2] : List ℤ) 1 5 = [([0, 1, 2], 1)] := by
  constructor
  · have h := ((C6_split_audio_chunks y12 1 5 (by norm_num)).2
      (by norm_num [y12]) 5 (by norm_num [intTrunc]) (by norm_num)).1
    rw [h]
    rfl
  · exact (C6_split_audio_chunks ([0, 1, 2] : List ℤ) 1 5 (by norm_num)).1
      (by norm_num)

end Guvenduy
